import Mathlib

/-!
Verification development for the OpenGL `Texture2DArray` resource
(`Source/Urho3D/Graphics/OpenGL/OGLTexture2DArray.cpp`).

The C++ object is embedded as a pure state-transition system:
- `TexState` holds the members of `Texture2DArray` (and the inherited
  `Texture` members that the file reads or writes);
- `Graphics` is the external GPU context (presence, device-lost flag,
  format-translation helpers, current texture-unit bindings);
- every operation returns its C++ `bool` result (or a `SetDataOutcome`
  mirroring the distinct logged error conditions), the updated state, and
  the list of GPU API calls it issued (`GpuCall`), so that "issues no GPU
  calls" is a statement about an empty trace.

Machine integers: C `int` is embedded as `Int` (all arithmetic in the file
stays far from 32-bit bounds on the validated paths; C truncating division
is written `Int.tdiv`, and the twos-complement `x & ~3` as flooring to a
multiple of 4), C `unsigned` as `Nat` (the one `unsigned` subtraction,
`levels - 1`, occurs behind a `levels >= 1` guarantee of the image decoder,
so `Nat` subtraction agrees with the wraparound semantics there).

External GL entry points (`glGenTextures`, `glTexImage3D`, ...) are not
implemented by this file in the repository either: the embedding records
the calls the core decides to issue and models allocation as succeeding
(`glGenTextures` yields the fresh nonzero name 1, `glGetError` reports no
error); driver-side allocation failure is outside the modelled core.
-/

/-- GPU pixel-format codes (GL enum values are abstract to this file; distinct
codes stand for the distinct formats the source mentions). Codes below 16
are uncompressed, codes 16 and above are compressed block formats. -/
def alphaFormat : Nat := 1

def luminanceFormat : Nat := 2

def luminanceAlphaFormat : Nat := 3

def rgbFormat : Nat := 4

def rgbaFormat : Nat := 5

/-- Modelled from the spec: `Texture::IsCompressed` (texture base class,
outside `src/`) tests whether the current GPU format is a compressed block
format; compressed format codes are those at or above 16. -/
def isCompressedFormat (f : Nat) : Bool := decide (16 ≤ f)

/-- `TextureUsage` values accepted by `SetSize`. -/
inductive TextureUsage where
  | texStatic
  | texDynamic
  | texRenderTarget
  | texDepthStencil
deriving DecidableEq

/-- Filtering modes touched by this file (`FILTER_NEAREST` is forced for
render targets; everything else keeps the prior mode). -/
inductive FilterMode where
  | filterDefault
  | filterNearest
deriving DecidableEq

/-- One GPU API call issued by the core, with the parameters the source
passes (buffer contents are abstract tokens). -/
inductive GpuCall where
  | genTextures (name : Nat)
  | setTextureForUpdate
  | texImage3D (level : Nat) (internalFormat : Nat) (w h : Int) (layers : Nat)
      (externalFormat dataType : Nat)
  | texSubImage3D (level : Nat) (x y : Int) (layer : Nat) (w h : Int)
      (externalFormat dataType : Nat) (dat : Nat)
  | compressedTexImage3D (level : Nat) (internalFormat : Nat) (w h : Int)
      (layers : Nat) (imageSize : Nat)
  | compressedTexSubImage3D (level : Nat) (x y : Int) (layer : Nat) (w h : Int)
      (format : Nat) (imageSize : Nat) (dat : Nat)
  | deleteTextures (name : Nat)
  | setTexture (unit : Nat) (name : Nat)
  | texParameterBaseLevel (v : Nat)
  | texParameterMaxLevel (v : Nat)
  | updateParameters
  | getTexImage (level : Nat) (externalFormat dataType : Nat)
  | getCompressedTexImage (level : Nat)
deriving DecidableEq

/-- One uncompressed mip level of a decoded image: dimensions plus an
abstract token for the pixel buffer contents. -/
structure MipLevel where
  width : Int
  height : Int
  dat : Nat
deriving DecidableEq

/-- One precomputed compressed mip level (`CompressedLevel` of the image
decoder): dimensions, block-data token, and the row count / row byte size
used for memory accounting. -/
structure CompressedLevel where
  width : Int
  height : Int
  dat : Nat
  rows : Nat
  rowSize : Nat
deriving DecidableEq

/-- Modelled from the spec: the decoded image produced by the external
image decoder. It exposes a component count, a compression tag, the
uncompressed mip chain (head is the current top level; `GetNextLevel`
walks down it), the compressed-format tag and the precomputed
compressed-level table. -/
structure Image where
  compressed : Bool
  components : Nat
  mipChain : List MipLevel
  compressedFormat : Nat
  compressedLevels : List CompressedLevel
deriving DecidableEq

def MipLevel.defaultLevel : MipLevel := { width := 0, height := 0, dat := 0 }

def CompressedLevel.defaultLevel : CompressedLevel :=
  { width := 0, height := 0, dat := 0, rows := 0, rowSize := 0 }

/-- `Image::GetWidth`: width of the current top level. -/
def Image.getWidth (img : Image) : Int :=
  (img.mipChain.headD MipLevel.defaultLevel).width

/-- `Image::GetHeight`: height of the current top level. -/
def Image.getHeight (img : Image) : Int :=
  (img.mipChain.headD MipLevel.defaultLevel).height

/-- `Image::GetData`: pixel buffer of the current top level. -/
def Image.getData (img : Image) : Nat :=
  (img.mipChain.headD MipLevel.defaultLevel).dat

/-- Modelled from the spec: `Image::GetNextLevel` derives the next-smaller
mip image (the decoder always yields one; once the chain bottoms out the
derivation stays at the last level). -/
def Image.getNextLevel (img : Image) : Image :=
  match img.mipChain with
  | _ :: l :: rest => { img with mipChain := l :: rest }
  | _ => img

/-- Modelled from the spec: `Image::ConvertToRGBA` re-encodes the pixels as
4-component RGBA (buffer tokens denote contents and are kept; only the
component count changes for the purposes of this core). -/
def Image.convertToRGBA (img : Image) : Image := { img with components := 4 }

/-- `Image::GetCompressedLevel i`: entry `i` of the precomputed table. -/
def Image.getCompressedLevel (img : Image) (i : Nat) : CompressedLevel :=
  img.compressedLevels.getD i CompressedLevel.defaultLevel

/-- The external GPU context (`graphics_`): whether one exists at all,
the device-lost flag, the GL3 profile flag, which texture units currently
bind this texture, and the external format-translation helpers
(`GetSRGBFormat`, `GetExternalFormat`, `GetDataType`, `GetFormat` for a
compressed tag — 0 meaning unsupported — and `GetDataSize`). -/
structure Graphics where
  present : Bool
  deviceLost : Bool
  gl3Support : Bool
  boundUnits : List Nat
  srgbFormatOf : Nat → Nat
  externalFormatOf : Nat → Nat
  dataTypeOf : Nat → Nat
  glFormatOfCompressed : Nat → Nat
  dataSize3 : Int → Int → Nat → Nat
  dataSize2 : Int → Int → Nat

/-- The members of `Texture2DArray` (with the inherited `Texture` members
this file reads or writes). `objectName` is the GPU handle, 0 when absent.
`mipsToSkip` is the quality-tier mip-skip table of the texture base class
(outside `src/`; its default is `{2, 1, 0}`). `renderSurface` records
whether a render surface is attached and `rsReleased` whether its own
release was invoked. `loadImages` is the prefetched per-layer image list
of the async load context. -/
structure TexState where
  width : Int
  height : Int
  layers : Nat
  format : Nat
  levels : Nat
  requestedLevels : Nat
  usage : TextureUsage
  filterMode : FilterMode
  srgb : Bool
  objectName : Nat
  layerMemoryUse : List Nat
  memoryUse : Nat
  renderSurface : Bool
  rsReleased : Bool
  surfaceEventSubscribed : Bool
  dataPending : Bool
  dataLost : Bool
  mipsToSkip : List Nat
  loadImages : List (Option Image)
  hasLoadParameters : Bool
deriving DecidableEq

/-- Abstract byte size of the C++ object (`sizeof(Texture2DArray)`); the
exact value is immaterial to every claim. -/
def sizeofTexture2DArray : Nat := 96

/-- Abstract byte size of `unsigned`. -/
def sizeofUnsigned : Nat := 4

/-- `Texture2DArray::Release`: if a handle exists — return untouched when
headless; otherwise, unless the device is lost, unbind the texture from
every unit referencing it and delete the GL object; then release any
attached render surface and clear the handle. -/
def release (g : Graphics) (s : TexState) : TexState × List GpuCall :=
  if s.objectName ≠ 0 then
    if ¬g.present then (s, [])
    else
      let calls :=
        if ¬g.deviceLost then
          g.boundUnits.map (fun i => GpuCall.setTexture i 0) ++
            [GpuCall.deleteTextures s.objectName]
        else []
      let s1 := if s.renderSurface then { s with rsReleased := true } else s
      ({ s1 with objectName := 0 }, calls)
  else (s, [])

/-- The `while (maxSize) { maxSize >>= 1; ++levels_; }` loop of `Create`,
written with a structural fuel argument (the loop halves, so fuel `m`
suffices for input `m`). -/
def levelsLoopAux : Nat → Nat → Nat
  | 0, _ => 0
  | _ + 1, 0 => 0
  | fuel + 1, m + 1 => levelsLoopAux fuel ((m + 1) / 2) + 1

/-- Number of mip levels computed by `Create` for a largest dimension `m`
when no explicit level count was requested. -/
def levelsCount (m : Nat) : Nat := levelsLoopAux m m

/-- `Texture2DArray::Create` (desktop GL path): release the old object;
fail when headless or unsized; report deferred success when the device is
lost; otherwise allocate a handle, bind it for update, allocate level-0
storage with null data (uncompressed formats), compute the final level
count, set the valid mip range, apply parameters, and unbind. -/
def create (g : Graphics) (s : TexState) : Bool × TexState × List GpuCall :=
  let rel := release g s
  let s0 := rel.1
  if ¬g.present ∨ s0.width = 0 ∨ s0.height = 0 ∨ s0.layers = 0 then (false, s0, rel.2)
  else if g.deviceLost then (true, s0, rel.2)
  else
    let name : Nat := 1
    let s1 := { s0 with objectName := name }
    let fmt := if s1.srgb then g.srgbFormatOf s1.format else s1.format
    let allocCalls :=
      if ¬isCompressedFormat s1.format then
        [GpuCall.texImage3D 0 fmt s1.width s1.height s1.layers
          (g.externalFormatOf s1.format) (g.dataTypeOf s1.format)]
      else []
    let lv :=
      if s1.requestedLevels ≠ 0 then s1.requestedLevels
      else levelsCount (max s1.width s1.height).toNat
    let s2 := { s1 with levels := lv }
    (true, s2,
      rel.2 ++ [GpuCall.genTextures name, GpuCall.setTextureForUpdate] ++ allocCalls ++
        [GpuCall.texParameterBaseLevel 0, GpuCall.texParameterMaxLevel (lv - 1),
          GpuCall.updateParameters, GpuCall.setTexture 0 0])

/-- `Texture2DArray::SetSize`: validate size and usage, replace the render
surface for render-target usage (forcing nearest filtering and a single
level), update the surface-update event subscription, store the new
dimensions and format, keep the prior layer count when `layers` is 0,
reset the per-layer memory counters, and create the GPU object. -/
def setSize (g : Graphics) (layers : Nat) (width height : Int) (format : Nat)
    (usage : TextureUsage) (s : TexState) : Bool × TexState × List GpuCall :=
  if width ≤ 0 ∨ height ≤ 0 then (false, s, [])
  else if usage = TextureUsage.texDepthStencil then (false, s, [])
  else
    let s1 := { s with renderSurface := false, rsReleased := false, usage := usage }
    let s2 :=
      if usage = TextureUsage.texRenderTarget then
        { s1 with
            renderSurface := true
            filterMode := FilterMode.filterNearest
            requestedLevels := 1 }
      else s1
    let s3 := { s2 with
        surfaceEventSubscribed := decide (usage = TextureUsage.texRenderTarget)
        width := width
        height := height
        format := format }
    let s4 := if layers ≠ 0 then { s3 with layers := layers } else s3
    let s5 := { s4 with layerMemoryUse := List.replicate s4.layers 0 }
    create g s5

/-- `Texture2DArray::SetLayers`: release the object and store the count. -/
def setLayers (g : Graphics) (n : Nat) (s : TexState) : TexState × List GpuCall :=
  let rel := release g s
  ({ rel.1 with layers := n }, rel.2)

/-- Modelled from the spec: `Texture::SetNumLevels` (texture base class,
outside `src/`) stores an explicit requested mip-level count. -/
def setNumLevels (n : Nat) (s : TexState) : TexState := { s with requestedLevels := n }

/-- Modelled from the spec: per-level dimensions of the texture base class
(outside `src/`): level `k` is the top size halved `k` times, minimum 1. -/
def getLevelWidth (s : TexState) (level : Nat) : Int :=
  max (s.width.tdiv (2 ^ level)) 1

/-- See `getLevelWidth`. -/
def getLevelHeight (s : TexState) (level : Nat) : Int :=
  max (s.height.tdiv (2 ^ level)) 1

/-- The twos-complement `x & ~3` of the source: round down to a multiple
of four. -/
def alignDown4 (x : Int) : Int := 4 * (x.fdiv 4)

/-- The per-region `Texture2DArray::SetData(layer, level, x, y, width,
height, data)`: existence / null-data / layer-range / level-range checks;
deferred success raising `dataPending` when the device is lost; block
alignment for compressed formats; bounds check against the level
dimensions; then the upload calls (a whole-level allocation when the
region is the full level of layer 0) bracketed by bind/unbind. -/
def setDataRegion (g : Graphics) (layer level : Nat) (x0 y0 w h : Int)
    (dat : Option Nat) (s : TexState) : Bool × TexState × List GpuCall :=
  if s.objectName = 0 ∨ ¬g.present then (false, s, [])
  else if dat.isNone then (false, s, [])
  else if layer ≥ s.layers then (false, s, [])
  else if level ≥ s.levels then (false, s, [])
  else if g.deviceLost then (true, { s with dataPending := true }, [])
  else
    let d := dat.getD 0
    let x := if isCompressedFormat s.format then alignDown4 x0 else x0
    let y := if isCompressedFormat s.format then alignDown4 y0 else y0
    let lw := getLevelWidth s level
    let lh := getLevelHeight s level
    if x < 0 ∨ x + w > lw ∨ y < 0 ∨ y + h > lh ∨ w ≤ 0 ∨ h ≤ 0 then (false, s, [])
    else
      let fmt := if s.srgb then g.srgbFormatOf s.format else s.format
      let wholeLevel := decide (x = 0 ∧ y = 0 ∧ w = lw ∧ h = lh ∧ layer = 0)
      let calls :=
        if ¬isCompressedFormat s.format then
          (if wholeLevel then
            [GpuCall.texImage3D level fmt w h s.layers
              (g.externalFormatOf s.format) (g.dataTypeOf s.format)]
          else []) ++
            [GpuCall.texSubImage3D level x y layer w h
              (g.externalFormatOf s.format) (g.dataTypeOf s.format) d]
        else
          (if wholeLevel then
            [GpuCall.compressedTexImage3D level fmt w h s.layers (g.dataSize3 w h s.layers)]
          else []) ++
            [GpuCall.compressedTexSubImage3D level x y layer w h fmt (g.dataSize2 w h) d]
      (true, s, [GpuCall.setTextureForUpdate] ++ calls ++ [GpuCall.setTexture 0 0])

/-- Distinct outcomes of the image-form `SetData` (the C++ `bool` is
`success`; the error constructors mirror the distinct logged messages). -/
inductive SetDataOutcome where
  | success
  | errNullImage
  | errNoLayers
  | errBadLayer
  | errLayerZeroFirst
  | errLayerMismatch
deriving DecidableEq

/-- The `while (mipsToSkip && (width / (1 << mipsToSkip) < 4 || height /
(1 << mipsToSkip) < 4)) --mipsToSkip;` loop of the compressed path. -/
def clampLoop : Nat → Int → Int → Nat
  | 0, _, _ => 0
  | k + 1, w, h =>
    if w.tdiv (2 ^ (k + 1)) < 4 ∨ h.tdiv (2 ^ (k + 1)) < 4 then clampLoop k w h
    else k + 1

/-- Mip-skip clamping of the compressed path: cap the quality-tier request
at `levels - 1`, then iteratively decrement while the level skipped to is
smaller than 4 texels in either dimension. (`levels - 1` is the C unsigned
subtraction; the decoder guarantees at least one compressed level.) -/
def clampMipsToSkip (requested levels : Nat) (w h : Int) : Nat :=
  let m := if requested ≥ levels then levels - 1 else requested
  clampLoop m w h

/-- The component-count switch of the uncompressed path (the `default`
branch is the unreachable `assert(false)` of the source; it leaves the local
`format` at its initial 0). -/
def formatOfComponents (components : Nat) (useAlpha : Bool) : Nat :=
  match components with
  | 1 => if useAlpha then alphaFormat else luminanceFormat
  | 2 => luminanceAlphaFormat
  | 3 => rgbFormat
  | 4 => rgbaFormat
  | _ => 0

/-- The `for (unsigned i = 0; i < mipsToSkip_[quality]; ++i)` discard loop
of the uncompressed path. -/
def skipLevels : Nat → Image → Image
  | 0, img => img
  | k + 1, img => skipLevels k img.getNextLevel

/-- Values negotiated by the uncompressed path before the layer-0 check:
the (possibly converted and mip-skipped) image, its component count, top
level dimensions, and the GPU format from the component switch. -/
structure NegotiatedU where
  image : Image
  components : Nat
  levelWidth : Int
  levelHeight : Int
  format : Nat
deriving DecidableEq

/-- The uncompressed-path negotiation: convert 1-component (without
alpha) and 2-component images to RGBA on a GL3 profile, discard the
quality-tier mip levels, and pick the format for the component count. -/
def negotiateU (g : Graphics) (quality : Nat) (img : Image) (useAlpha : Bool)
    (s : TexState) : NegotiatedU :=
  let image1 :=
    if g.gl3Support ∧ ((img.components = 1 ∧ ¬useAlpha) ∨ img.components = 2) then
      img.convertToRGBA
    else img
  let image2 := skipLevels (s.mipsToSkip.getD quality 0) image1
  { image := image2
    components := image1.components
    levelWidth := image2.getWidth
    levelHeight := image2.getHeight
    format := formatOfComponents image1.components useAlpha }

/-- Values negotiated by the compressed path before the layer-0 check. -/
structure NegotiatedC where
  clevels : Nat
  skip : Nat
  needDecompress : Bool
  width : Int
  height : Int
  format : Nat
deriving DecidableEq

/-- The compressed-path negotiation: look up the GPU format for the
compressed tag (falling back to RGBA with decompression when
unsupported), clamp the quality-tier mip skip, and divide the top
dimensions by the skipped power of two. -/
def negotiateC (g : Graphics) (quality : Nat) (img : Image) (s : TexState) :
    NegotiatedC :=
  let w0 := img.getWidth
  let h0 := img.getHeight
  let clevels := img.compressedLevels.length
  let fmt0 := g.glFormatOfCompressed img.compressedFormat
  let skip := clampMipsToSkip (s.mipsToSkip.getD quality 0) clevels w0 h0
  { clevels := clevels
    skip := skip
    needDecompress := decide (fmt0 = 0)
    width := w0.tdiv (2 ^ skip)
    height := h0.tdiv (2 ^ skip)
    format := if fmt0 = 0 then rgbaFormat else fmt0 }

/-- The negotiated (width, height, format) triple that an image-form
`SetData` compares against the established values of layer 0. -/
def negotiatedTriple (g : Graphics) (quality : Nat) (img : Image) (useAlpha : Bool)
    (s : TexState) : Int × Int × Nat :=
  if img.compressed then
    let n := negotiateC g quality img s
    (n.width, n.height, n.format)
  else
    let n := negotiateU g quality img useAlpha s
    (n.levelWidth, n.levelHeight, n.format)

/-- The per-level upload loop of the uncompressed path: `remaining` counts
the iterations left of `for (i = 0; i < levels_; ++i)`; each iteration
issues a per-region upload of the current image level (its result is
ignored, matching the source), accumulates `width*height*components`
memory use, and derives the next level except after the last iteration.
Returns the final state, the concatenated GPU trace, and the memory-use
accumulator. -/
def uploadLoopU (g : Graphics) (layer components : Nat) :
    Nat → Nat → Image → TexState → Nat → TexState × List GpuCall × Nat
  | 0, _, _, s, mem => (s, [], mem)
  | r + 1, i, img, s, mem =>
    let step := setDataRegion g layer i 0 0 img.getWidth img.getHeight
      (some img.getData) s
    let mem1 := mem + (img.getWidth * img.getHeight).toNat * components
    let img1 := if 0 < r then img.getNextLevel else img
    let rest := uploadLoopU g layer components r (i + 1) img1 step.2.1 mem1
    (rest.1, step.2.2 ++ rest.2.1, rest.2.2)

/-- The per-level upload loop of the compressed path: `remaining` counts
the iterations left of `for (i = 0; i < levels_ && i < levels -
mipsToSkip; ++i)`; each iteration reads compressed level `i + skip`,
uploads either its block data (accumulating `rows*rowSize`) or, on the
decompression fallback, a freshly decompressed RGBA buffer (accumulating
`width*height*4`; the temporary buffer carries the content of the level
token). -/
def uploadLoopC (g : Graphics) (layer skip : Nat) (needDecompress : Bool)
    (img : Image) : Nat → Nat → TexState → Nat → TexState × List GpuCall × Nat
  | 0, _, s, mem => (s, [], mem)
  | r + 1, i, s, mem =>
    let lvl := img.getCompressedLevel (i + skip)
    let step := setDataRegion g layer i 0 0 lvl.width lvl.height (some lvl.dat) s
    let mem1 :=
      if ¬needDecompress then mem + lvl.rows * lvl.rowSize
      else mem + (lvl.width * lvl.height).toNat * 4
    let rest := uploadLoopC g layer skip needDecompress img r (i + 1) step.2.1 mem1
    (rest.1, step.2.2 ++ rest.2.1, rest.2.2)

/-- The epilogue of the image-form `SetData`: store the memory use of the layer
then recompute the total estimate (object overhead, counter-array
overhead, and the sum of the first `layers_` counters). -/
def finishMem (layer : Nat) (s : TexState) (mem : Nat) (tr : List GpuCall) :
    SetDataOutcome × TexState × List GpuCall :=
  let lmu := s.layerMemoryUse.set layer mem
  let total := sizeofTexture2DArray + lmu.length * sizeofUnsigned +
    ((lmu.take s.layers).foldl (· + ·) 0)
  (SetDataOutcome.success, { s with layerMemoryUse := lmu, memoryUse := total }, tr)

/-- The image-form `Texture2DArray::SetData(layer, image, useAlpha)`:
null-image / layer-count-set / layer-range checks, then the uncompressed
or compressed pipeline — negotiation, the layer-0 sizing call (whose
result the source ignores) or the layer-0-loaded and size/format-match
checks, the per-level upload loop, and the memory-use epilogue. -/
def setDataImage (g : Graphics) (quality : Nat) (layer : Nat)
    (imgOpt : Option Image) (useAlpha : Bool) (s : TexState) :
    SetDataOutcome × TexState × List GpuCall :=
  match imgOpt with
  | none => (SetDataOutcome.errNullImage, s, [])
  | some image0 =>
    if s.layers = 0 then (SetDataOutcome.errNoLayers, s, [])
    else if layer ≥ s.layers then (SetDataOutcome.errBadLayer, s, [])
    else if ¬image0.compressed then
      let n := negotiateU g quality image0 useAlpha s
      if layer = 0 then
        let s1 :=
          if isCompressedFormat s.format ∧ s.requestedLevels > 1 then
            { s with requestedLevels := 0 }
          else s
        let sized := setSize g 0 n.levelWidth n.levelHeight n.format
          TextureUsage.texStatic s1
        let s2 := sized.2.1
        let up := uploadLoopU g 0 n.components s2.levels 0 n.image s2 0
        finishMem 0 up.1 up.2.2 (sized.2.2 ++ up.2.1)
      else
        if s.objectName = 0 then (SetDataOutcome.errLayerZeroFirst, s, [])
        else if n.levelWidth ≠ s.width ∨ n.levelHeight ≠ s.height ∨
            n.format ≠ s.format then
          (SetDataOutcome.errLayerMismatch, s, [])
        else
          let up := uploadLoopU g layer n.components s.levels 0 n.image s 0
          finishMem layer up.1 up.2.2 up.2.1
    else
      let n := negotiateC g quality image0 s
      if layer = 0 then
        let s1 := setNumLevels (max (n.clevels - n.skip) 1) s
        let sized := setSize g 0 n.width n.height n.format TextureUsage.texStatic s1
        let s2 := sized.2.1
        let count := min s2.levels (n.clevels - n.skip)
        let up := uploadLoopC g 0 n.skip n.needDecompress image0 count 0 s2 0
        finishMem 0 up.1 up.2.2 (sized.2.2 ++ up.2.1)
      else
        if s.objectName = 0 then (SetDataOutcome.errLayerZeroFirst, s, [])
        else if n.width ≠ s.width ∨ n.height ≠ s.height ∨ n.format ≠ s.format then
          (SetDataOutcome.errLayerMismatch, s, [])
        else
          let count := min s.levels (n.clevels - n.skip)
          let up := uploadLoopC g layer n.skip n.needDecompress image0 count 0 s 0
          finishMem layer up.1 up.2.2 up.2.1

/-- `Texture2DArray::GetData` (desktop GL path): existence /
null-destination checks, only layer 0 (full-array readback) is supported,
level-range check, hard failure while the device is lost, then the
readback call bracketed by bind/unbind. -/
def getData (g : Graphics) (layer level : Nat) (dest : Option Nat) (s : TexState) :
    Bool × List GpuCall :=
  if s.objectName = 0 ∨ ¬g.present then (false, [])
  else if dest.isNone then (false, [])
  else if layer ≠ 0 then (false, [])
  else if level ≥ s.levels then (false, [])
  else if g.deviceLost then (false, [])
  else
    let calls :=
      if ¬isCompressedFormat s.format then
        [GpuCall.getTexImage level (g.externalFormatOf s.format) (g.dataTypeOf s.format)]
      else [GpuCall.getCompressedTexImage level]
    (true, [GpuCall.setTextureForUpdate] ++ calls ++ [GpuCall.setTexture 0 0])

/-- Modelled from the spec: `GetPath(name).Empty()` — a bare file name has
no directory part. -/
def hasPath (n : String) : Bool := n.contains '/'

/-- `Texture2DArray::BeginLoad`: pure success when headless; deferred
success raising `dataPending` when the device is lost; otherwise parse the
layer-list descriptor (`desc` is the externally parsed list of layer
names, `none` when the XML load fails), resolve bare names against the
directory of the descriptor, and request each image from the external cache
(`cacheFetch`). -/
def beginLoad (g : Graphics) (texPath : String) (desc : Option (List String))
    (cacheFetch : String → Option Image) (s : TexState) : Bool × TexState :=
  if ¬g.present then (true, s)
  else if g.deviceLost then (true, { s with dataPending := true })
  else
    match desc with
    | none => (false, { s with hasLoadParameters := false })
    | some names =>
      let resolved := names.map (fun n => if hasPath n then n else texPath ++ n)
      (true, { s with
          hasLoadParameters := true
          loadImages := resolved.map cacheFetch })

/-- The per-layer upload fold of `EndLoad`: `SetData(i, loadImages_[i])`
for each prefetched image in order, ignoring each result. -/
def uploadAll (g : Graphics) (quality : Nat) :
    Nat → List (Option Image) → TexState → TexState × List GpuCall
  | _, [], s => (s, [])
  | i, img :: rest, s =>
    let step := setDataImage g quality i img false s
    let next := uploadAll g quality (i + 1) rest step.2.1
    (next.1, step.2.2 ++ next.2)

/-- `Texture2DArray::EndLoad`: no-op success when headless or the device
is lost; otherwise (after the external texture-budget check and parameter
application) set the layer count from the prefetched image list, upload
every layer in order, and clear the load context. -/
def endLoad (g : Graphics) (quality : Nat) (s : TexState) :
    Bool × TexState × List GpuCall :=
  if ¬g.present ∨ g.deviceLost then (true, s, [])
  else
    let sl := setLayers g s.loadImages.length s
    let up := uploadAll g quality 0 s.loadImages sl.1
    (true, { up.1 with loadImages := [], hasLoadParameters := false },
      sl.2 ++ up.2)

/-- Modelled from the spec: device loss invalidates the GPU handle (the
context destruction already destroyed the GL object; the base class
records the handle as absent). The attached render surface is notified
separately and keeps its own state. -/
def onDeviceLost (s : TexState) : TexState := { s with objectName := 0 }

/-- The external resource cache as `OnDeviceReset` uses it: whether a
source file for this resource exists, and the reload-through-cache entry
point (an external operation that re-runs the whole load pipeline and
returns its success flag and the resulting object state). -/
structure Cache where
  hasFile : Bool
  reload : Graphics → TexState → Bool × TexState

/-- `Texture2DArray::OnDeviceReset`: when the handle is absent or data is
pending — reload through the cache when a source file exists (recording
`dataLost` on reload failure), and if the handle is still absent,
recreate an empty object and mark `dataLost`; finally clear `dataPending`
unconditionally. -/
def onDeviceReset (g : Graphics) (c : Cache) (s : TexState) : TexState :=
  let s1 :=
    if s.objectName = 0 ∨ s.dataPending then
      let s2 :=
        if c.hasFile then
          let r := c.reload g s
          { r.2 with dataLost := !r.1 }
        else s
      if s2.objectName = 0 then
        let r := create g s2
        { r.2.1 with dataLost := true }
      else s2
    else s
  { s1 with dataPending := false }

/-- A live, non-lost GL3 graphics context with no units bound to this
texture; the external format helpers are concrete stand-ins. -/
def gLive : Graphics :=
  { present := true
    deviceLost := false
    gl3Support := true
    boundUnits := []
    srgbFormatOf := fun f => f
    externalFormatOf := fun f => f
    dataTypeOf := fun _ => 0
    glFormatOfCompressed := fun _ => 0
    dataSize3 := fun _ _ _ => 0
    dataSize2 := fun _ _ => 0 }

/-- The same context with the device lost. -/
def gLost : Graphics := { gLive with deviceLost := true }

/-- A headless run (no graphics subsystem). -/
def gHeadless : Graphics := { gLive with present := false }

/-- A freshly constructed `Texture2DArray` (the constructor zeroes the
layer count; the base classes zero the rest; the mip-skip table holds its
default `{2, 1, 0}`). -/
def state0 : TexState :=
  { width := 0
    height := 0
    layers := 0
    format := 0
    levels := 0
    requestedLevels := 0
    usage := TextureUsage.texStatic
    filterMode := FilterMode.filterDefault
    srgb := false
    objectName := 0
    layerMemoryUse := []
    memoryUse := 0
    renderSurface := false
    rsReleased := false
    surfaceEventSubscribed := false
    dataPending := false
    dataLost := false
    mipsToSkip := [2, 1, 0]
    loadImages := []
    hasLoadParameters := false }

/-- A 4-layer 8×8 RGBA array sized on the live device. -/
def exSized : TexState := (setSize gLive 4 8 8 rgbaFormat TextureUsage.texStatic state0).2.1

/-- A 4-layer 4×4 RGBA array sized on the live device. -/
def exSized4 : TexState := (setSize gLive 4 4 4 rgbaFormat TextureUsage.texStatic state0).2.1

/-- A 5-layer 4×4 RGBA array sized on the live device. -/
def exSized5 : TexState := (setSize gLive 5 4 4 rgbaFormat TextureUsage.texStatic state0).2.1

/-- An uncompressed 4-component 4×4 image with its full mip chain. -/
def exImg4 : Image :=
  { compressed := false
    components := 4
    mipChain := [{ width := 4, height := 4, dat := 10 },
      { width := 2, height := 2, dat := 11 },
      { width := 1, height := 1, dat := 12 }]
    compressedFormat := 0
    compressedLevels := [] }

/-- A 5×5 two-layer RGBA state sized but not yet created. -/
def s55 : TexState := { state0 with width := 5, height := 5, layers := 2, format := rgbaFormat }

/-- An uncompressed 4-component 8×8 image with its full mip chain. -/
def exImg8 : Image :=
  { compressed := false
    components := 4
    mipChain := [{ width := 8, height := 8, dat := 20 },
      { width := 4, height := 4, dat := 21 },
      { width := 2, height := 2, dat := 22 },
      { width := 1, height := 1, dat := 23 }]
    compressedFormat := 0
    compressedLevels := [] }

/-- A state whose layer count was set through `SetLayers` but whose GPU
object was never created. -/
def exLayersOnly : TexState := (setLayers gLive 4 state0).1

/-- A resource cache with no source file for this resource; its reload
entry point reports failure and leaves the state unchanged. -/
def cacheNone : Cache := { hasFile := false, reload := fun _ t => (false, t) }

theorem levelsLoopAux_zero (fuel : Nat) : levelsLoopAux fuel 0 = 0 := by
  cases fuel <;> rfl

theorem levelsLoopAux_eq (fuel : Nat) : ∀ m : Nat, 1 ≤ m → m ≤ fuel →
    levelsLoopAux fuel m = Nat.log 2 m + 1 := by
  induction fuel with
  | zero => intro m hm hf; omega
  | succ f ih =>
    intro m hm hf
    match m, hm with
    | 1, _ =>
      rw [show levelsLoopAux (f + 1) 1 = levelsLoopAux f 0 + 1 from rfl,
        levelsLoopAux_zero, Nat.log_one_right]
    | (m' + 2), _ =>
      rw [show levelsLoopAux (f + 1) (m' + 2) = levelsLoopAux f ((m' + 2) / 2) + 1 from rfl,
        ih ((m' + 2) / 2) (by omega) (by omega)]
      have hd := Nat.log_div_base 2 (m' + 2)
      have hpos := Nat.log_pos (show 1 < 2 by omega) (show 2 ≤ m' + 2 by omega)
      omega

/-- The level-count loop of `Create` computes the floor base-2 logarithm
plus one (the bit length) of the largest dimension. -/
theorem levelsCount_eq (m : Nat) (hm : 1 ≤ m) : levelsCount m = Nat.log 2 m + 1 :=
  levelsLoopAux_eq m m hm le_rfl

theorem clampLoop_le (k : Nat) (w h : Int) : clampLoop k w h ≤ k := by
  induction k with
  | zero => simp [clampLoop]
  | succ n ih =>
    rw [show clampLoop (n + 1) w h =
      if w.tdiv (2 ^ (n + 1)) < 4 ∨ h.tdiv (2 ^ (n + 1)) < 4 then clampLoop n w h
      else n + 1 from rfl]
    split_ifs with hc
    · exact ih.trans (Nat.le_succ n)
    · exact le_rfl

theorem clampLoop_ge4 (w h : Int) : ∀ k : Nat, 0 < clampLoop k w h →
    4 ≤ w.tdiv (2 ^ clampLoop k w h) ∧ 4 ≤ h.tdiv (2 ^ clampLoop k w h) := by
  intro k
  induction k with
  | zero => intro hpos; simp [clampLoop] at hpos
  | succ n ih =>
    have he : clampLoop (n + 1) w h =
        if w.tdiv (2 ^ (n + 1)) < 4 ∨ h.tdiv (2 ^ (n + 1)) < 4 then clampLoop n w h
        else n + 1 := rfl
    intro hpos
    by_cases hc : w.tdiv (2 ^ (n + 1)) < 4 ∨ h.tdiv (2 ^ (n + 1)) < 4
    · rw [he, if_pos hc] at hpos ⊢
      exact ih hpos
    · rw [he, if_neg hc]
      push_neg at hc
      exact ⟨hc.1, hc.2⟩

theorem setDataRegion_lost (g : Graphics) (layer level : Nat) (x y w h : Int) (d : Nat)
    (s : TexState) (hp : g.present = true) (hl : g.deviceLost = true)
    (hobj : s.objectName ≠ 0) (hlayer : layer < s.layers) (hlevel : level < s.levels) :
    setDataRegion g layer level x y w h (some d) s =
      (true, { s with dataPending := true }, []) := by
  simp only [setDataRegion, hp, hl]
  rw [if_neg (by simp [hobj]), if_neg (by simp), if_neg (by omega), if_neg (by omega)]
  simp

theorem create_live_handle (g : Graphics) (s : TexState) (hp : g.present = true)
    (hl : g.deviceLost = false) (hw : s.width ≠ 0) (hh : s.height ≠ 0)
    (hlay : s.layers ≠ 0) : (create g s).2.1.objectName = 1 := by
  simp only [create, release]
  split_ifs <;> simp_all

theorem uploadLoopU_lost (g : Graphics) (layer comp : Nat) (hp : g.present = true)
    (hl : g.deviceLost = true) :
    ∀ (r i : Nat) (img : Image) (s : TexState) (mem : Nat),
      s.objectName ≠ 0 → layer < s.layers → i + r ≤ s.levels → 0 < r →
      (uploadLoopU g layer comp r i img s mem).1 = { s with dataPending := true } ∧
      (uploadLoopU g layer comp r i img s mem).2.1 = [] := by
  intro r
  induction r with
  | zero => intro i img s mem _ _ _ hr; omega
  | succ r' ih =>
    intro i img s mem hobj hlayer hle _
    have hstep := setDataRegion_lost g layer i 0 0 img.getWidth img.getHeight
      img.getData s hp hl hobj hlayer (by omega)
    simp only [uploadLoopU, hstep]
    rcases Nat.eq_zero_or_pos r' with h0 | hpos
    · subst h0
      simp [uploadLoopU]
    · have hrec := ih (i + 1) (if 0 < r' then img.getNextLevel else img)
        { s with dataPending := true }
        (mem + (img.getWidth * img.getHeight).toNat * comp)
        hobj hlayer (by simpa using by omega) hpos
      simp [hrec.1, hrec.2]

/-- Claim C8: `SetSize` with nonpositive width, nonpositive height, or
depth-stencil usage fails and leaves the entire previous state untouched
(and issues no GPU calls). -/
theorem c8_setSize_invalid_rejected (g : Graphics) (s : TexState) (layers : Nat)
    (width height : Int) (format : Nat) (usage : TextureUsage)
    (h : width ≤ 0 ∨ height ≤ 0 ∨ usage = TextureUsage.texDepthStencil) :
    setSize g layers width height format usage s = (false, s, []) := by
  unfold setSize
  rcases h with h | h | h
  · rw [if_pos (Or.inl h)]
  · rw [if_pos (Or.inr h)]
  · by_cases hw : width ≤ 0 ∨ height ≤ 0
    · rw [if_pos hw]
    · rw [if_neg hw, if_pos h]

/-- Witness for C8 at a concrete call: zero width on a previously sized
object. -/
theorem c8_setSize_invalid_rejected_witness :
    setSize gLive 4 0 8 rgbaFormat TextureUsage.texStatic exSized = (false, exSized, []) :=
  c8_setSize_invalid_rejected gLive exSized 4 0 8 rgbaFormat TextureUsage.texStatic
    (Or.inl (by decide))

/-- Claim C9: `Release` is idempotent — a second call right after a first
is a no-op yielding the same state; it is a no-op on an already-released
object; and with no graphics subsystem it returns without side effects. -/
theorem c9_release_idempotent (g : Graphics) (s : TexState) :
    release g (release g s).1 = ((release g s).1, []) ∧
    (s.objectName = 0 → release g s = (s, [])) ∧
    (g.present = false → release g s = (s, [])) := by
  have hnoop : ∀ t : TexState, t.objectName = 0 → release g t = (t, []) := by
    intro t ht
    simp [release, ht]
  refine ⟨?_, hnoop s, ?_⟩
  · by_cases h0 : s.objectName = 0
    · rw [hnoop s h0]
      exact hnoop s h0
    · by_cases hp : g.present
      · have h1 : ((release g s).1).objectName = 0 := by
          unfold release
          rw [if_pos h0, if_neg (not_not_intro hp)]
        exact hnoop _ h1
      · have hrel : release g s = (s, []) := by
          unfold release
          rw [if_pos h0, if_pos hp]
        rw [hrel]
        exact hrel
  · intro hp
    by_cases h0 : s.objectName = 0
    · exact hnoop s h0
    · unfold release
      rw [if_pos h0, if_pos (by simp [hp])]

/-- Witness for C9: headless release of a sized object is a no-op, and a
second release after a first on the live device is a no-op. -/
theorem c9_release_idempotent_witness :
    release gHeadless exSized = (exSized, []) ∧
    release gLive (release gLive exSized).1 = ((release gLive exSized).1, []) :=
  ⟨(c9_release_idempotent gHeadless exSized).2.2 rfl,
    (c9_release_idempotent gLive exSized).1⟩

theorem release_width (g : Graphics) (s : TexState) :
    (release g s).1.width = s.width := by
  unfold release
  split_ifs <;> rfl

theorem release_height (g : Graphics) (s : TexState) :
    (release g s).1.height = s.height := by
  unfold release
  split_ifs <;> rfl

theorem release_layers (g : Graphics) (s : TexState) :
    (release g s).1.layers = s.layers := by
  unfold release
  split_ifs <;> rfl

theorem release_format (g : Graphics) (s : TexState) :
    (release g s).1.format = s.format := by
  unfold release
  split_ifs <;> rfl

theorem release_levels (g : Graphics) (s : TexState) :
    (release g s).1.levels = s.levels := by
  unfold release
  split_ifs <;> rfl

theorem release_requestedLevels (g : Graphics) (s : TexState) :
    (release g s).1.requestedLevels = s.requestedLevels := by
  unfold release
  split_ifs <;> rfl

theorem release_dataPending (g : Graphics) (s : TexState) :
    (release g s).1.dataPending = s.dataPending := by
  unfold release
  split_ifs <;> rfl

theorem release_layerMemoryUse (g : Graphics) (s : TexState) :
    (release g s).1.layerMemoryUse = s.layerMemoryUse := by
  unfold release
  split_ifs <;> rfl

theorem release_objectName_present (g : Graphics) (s : TexState)
    (hp : g.present = true) : (release g s).1.objectName = 0 := by
  unfold release
  split_ifs with h1 h2 <;> first | rfl | exact absurd hp (by simpa using h2) | simp_all

theorem create_width (g : Graphics) (s : TexState) :
    (create g s).2.1.width = s.width := by
  simp only [create]
  split
  · simp [release_width]
  · split <;> simp [release_width]

theorem create_height (g : Graphics) (s : TexState) :
    (create g s).2.1.height = s.height := by
  simp only [create]
  split
  · simp [release_height]
  · split <;> simp [release_height]

theorem create_layers (g : Graphics) (s : TexState) :
    (create g s).2.1.layers = s.layers := by
  simp only [create]
  split
  · simp [release_layers]
  · split <;> simp [release_layers]

theorem create_format (g : Graphics) (s : TexState) :
    (create g s).2.1.format = s.format := by
  simp only [create]
  split
  · simp [release_format]
  · split <;> simp [release_format]

theorem create_dataPending (g : Graphics) (s : TexState) :
    (create g s).2.1.dataPending = s.dataPending := by
  simp only [create]
  split
  · simp [release_dataPending]
  · split <;> simp [release_dataPending]

theorem create_layerMemoryUse (g : Graphics) (s : TexState) :
    (create g s).2.1.layerMemoryUse = s.layerMemoryUse := by
  simp only [create]
  split
  · simp [release_layerMemoryUse]
  · split <;> simp [release_layerMemoryUse]

theorem create_guard_ok (g : Graphics) (s : TexState) (hp : g.present = true)
    (hw : s.width ≠ 0) (hh : s.height ≠ 0) (hlay : s.layers ≠ 0) :
    ¬(¬g.present ∨ (release g s).1.width = 0 ∨ (release g s).1.height = 0 ∨
      (release g s).1.layers = 0) := by
  push_neg
  exact ⟨by simp [hp], by rw [release_width]; exact hw, by rw [release_height]; exact hh,
    by rw [release_layers]; exact hlay⟩

theorem create_true (g : Graphics) (s : TexState) (hp : g.present = true)
    (hw : s.width ≠ 0) (hh : s.height ≠ 0) (hlay : s.layers ≠ 0) :
    (create g s).1 = true := by
  unfold create
  rw [if_neg (create_guard_ok g s hp hw hh hlay)]
  split_ifs <;> rfl

theorem create_lost_objectName (g : Graphics) (s : TexState) (hp : g.present = true)
    (hl : g.deviceLost = true) (hw : s.width ≠ 0) (hh : s.height ≠ 0)
    (hlay : s.layers ≠ 0) : (create g s).2.1.objectName = 0 := by
  unfold create
  rw [if_neg (create_guard_ok g s hp hw hh hlay), if_pos (by simp [hl])]
  exact release_objectName_present g s hp

theorem create_levels_auto (g : Graphics) (s : TexState) (hp : g.present = true)
    (hl : g.deviceLost = false) (hr : s.requestedLevels = 0) (hw : s.width ≠ 0)
    (hh : s.height ≠ 0) (hlay : s.layers ≠ 0) :
    (create g s).2.1.levels = levelsCount (max s.width s.height).toNat := by
  unfold create
  rw [if_neg (create_guard_ok g s hp hw hh hlay), if_neg (by simp [hl])]
  have hr0 : (release g s).1.requestedLevels = 0 := by rw [release_requestedLevels]; exact hr
  simp [hr0, release_width, release_height]


/-- Claim C10: a validated `SetSize` keeps the prior layer count when the
`layers` argument is 0 (zero means "keep existing"), and always resizes
the per-layer memory-use counters to the resulting layer count with every
counter reset to 0. -/
theorem c10_setSize_layers_and_counters (g : Graphics) (s : TexState) (layers : Nat)
    (width height : Int) (format : Nat) (usage : TextureUsage)
    (hw : 0 < width) (hh : 0 < height) (hu : usage ≠ TextureUsage.texDepthStencil) :
    (setSize g layers width height format usage s).2.1.layers =
      (if layers = 0 then s.layers else layers) ∧
    (setSize g layers width height format usage s).2.1.layerMemoryUse =
      List.replicate (setSize g layers width height format usage s).2.1.layers 0 := by
  have hA : ¬(width ≤ 0 ∨ height ≤ 0) := by omega
  simp only [setSize]
  rw [if_neg hA, if_neg hu, create_layers, create_layerMemoryUse]
  by_cases hL : layers = 0 <;> split_ifs <;> simp_all

/-- Witness for C10 at a concrete call: `layers = 0` on a 5-layer array
keeps the 5 layers and resets the counters. -/
theorem c10_setSize_layers_and_counters_witness :
    (setSize gLive 0 8 8 rgbaFormat TextureUsage.texStatic exSized5).2.1.layers =
      (if (0 : Nat) = 0 then exSized5.layers else 0) ∧
    (setSize gLive 0 8 8 rgbaFormat TextureUsage.texStatic exSized5).2.1.layerMemoryUse =
      List.replicate
        (setSize gLive 0 8 8 rgbaFormat TextureUsage.texStatic exSized5).2.1.layers 0 :=
  c10_setSize_layers_and_counters gLive exSized5 0 8 8 rgbaFormat TextureUsage.texStatic
    (by decide) (by decide) (by decide)

/-- Claim C1 (counterexample): a valid live-device `setSize` call with a
`layers` argument of 0 on a previously 5-layer array returns success with
a nonzero resulting layer count, yet the reported layer count (5) does not
equal the `layers` input (0) — refuting "layer count equals the inputs"
as stated. -/
theorem c1_counterexample :
    (setSize gLive 0 8 8 rgbaFormat TextureUsage.texStatic exSized5).1 = true ∧
    (setSize gLive 0 8 8 rgbaFormat TextureUsage.texStatic exSized5).2.1.layers = 5 ∧
    ¬((setSize gLive 0 8 8 rgbaFormat TextureUsage.texStatic exSized5).2.1.layers = 0) := by
  decide

/-- Claim C1 (amended): for a nonzero `layers` argument, positive
dimensions, non-depth-stencil usage, and a live non-lost device, `setSize`
succeeds and the reported width, height, format and layer count equal the
inputs (a zero `layers` argument instead retains the prior layer count,
see C10). -/
theorem c1_setSize_success_reports_inputs (g : Graphics) (s : TexState) (layers : Nat)
    (width height : Int) (format : Nat) (usage : TextureUsage)
    (hw : 0 < width) (hh : 0 < height) (hu : usage ≠ TextureUsage.texDepthStencil)
    (hp : g.present = true) (_hl : g.deviceLost = false) (hL : layers ≠ 0) :
    (setSize g layers width height format usage s).1 = true ∧
    (setSize g layers width height format usage s).2.1.width = width ∧
    (setSize g layers width height format usage s).2.1.height = height ∧
    (setSize g layers width height format usage s).2.1.format = format ∧
    (setSize g layers width height format usage s).2.1.layers = layers := by
  have hA : ¬(width ≤ 0 ∨ height ≤ 0) := by omega
  simp only [setSize]
  rw [if_neg hA, if_neg hu, create_width, create_height, create_format, create_layers]
  refine ⟨?_, ?_, ?_, ?_, ?_⟩
  · refine create_true _ _ hp ?_ ?_ ?_ <;> split_ifs <;> simp_all <;> omega
  all_goals split_ifs <;> simp_all

/-- Witness for the amended C1 at a concrete call. -/
theorem c1_setSize_success_reports_inputs_witness :
    (setSize gLive 4 8 8 rgbaFormat TextureUsage.texStatic state0).1 = true ∧
    (setSize gLive 4 8 8 rgbaFormat TextureUsage.texStatic state0).2.1.width = 8 ∧
    (setSize gLive 4 8 8 rgbaFormat TextureUsage.texStatic state0).2.1.height = 8 ∧
    (setSize gLive 4 8 8 rgbaFormat TextureUsage.texStatic state0).2.1.format = rgbaFormat ∧
    (setSize gLive 4 8 8 rgbaFormat TextureUsage.texStatic state0).2.1.layers = 4 :=
  c1_setSize_success_reports_inputs gLive state0 4 8 8 rgbaFormat TextureUsage.texStatic
    (by decide) (by decide) (by decide) (by decide) (by decide) (by decide)

/-- Claim C4: the compressed-path mip-skip count is clamped to the
level count of the image minus one; whenever the clamped skip is still positive, the
level skipped to is at least 4×4 (the loop decrements while that is
violated); and for an 8×8 image with 4 compressed levels and a requested
skip of 3, the effective skip is exactly 1. -/
theorem c4_mip_skip_clamped (requested levels : Nat) (w h : Int) (hlev : 1 ≤ levels) :
    clampMipsToSkip requested levels w h ≤ levels - 1 ∧
    (0 < clampMipsToSkip requested levels w h →
      4 ≤ w.tdiv (2 ^ clampMipsToSkip requested levels w h) ∧
      4 ≤ h.tdiv (2 ^ clampMipsToSkip requested levels w h)) ∧
    clampMipsToSkip 3 4 8 8 = 1 := by
  refine ⟨?_, ?_, by decide⟩
  · have hle := clampLoop_le (if requested ≥ levels then levels - 1 else requested) w h
    simp only [clampMipsToSkip]
    split_ifs at hle ⊢ <;> omega
  · intro hpos
    exact clampLoop_ge4 w h _ hpos

/-- Witness for C4 at the concrete 8×8 skip-3 instance. -/
theorem c4_mip_skip_clamped_witness :
    clampMipsToSkip 3 4 8 8 ≤ 3 ∧
    (4 : Int) ≤ Int.tdiv 8 (2 ^ clampMipsToSkip 3 4 8 8) ∧
    clampMipsToSkip 3 4 8 8 = 1 :=
  ⟨(c4_mip_skip_clamped 3 4 8 8 (by decide)).1,
    ((c4_mip_skip_clamped 3 4 8 8 (by decide)).2.1 (by decide)).1,
    (c4_mip_skip_clamped 3 4 8 8 (by decide)).2.2⟩

/-- Claim C5 (counterexample): for a 5×5 texture, `Create` on the live
device stores 3 mip levels (the loop computes the bit length,
⌊log2 5⌋ + 1 = 3), while the claimed formula ⌈log2 5⌉ + 1 evaluates
to 4. -/
theorem c5_counterexample :
    (create gLive s55).2.1.levels = 3 ∧ Nat.clog 2 5 + 1 = 4 := by
  constructor
  · decide
  · have h1 : Nat.clog 2 5 ≤ 3 :=
      (Nat.le_pow_iff_clog_le (by norm_num)).mp (by norm_num)
    have h2 : 2 < Nat.clog 2 5 :=
      (Nat.pow_lt_iff_lt_clog (by norm_num)).mp (by norm_num)
    omega

/-- Claim C5 (amended): when `Create` runs on a live non-lost device with
no explicit mip-level request, the stored level count equals
⌊log2(max(width, height))⌋ + 1. -/
theorem c5_create_levels_floor_log (g : Graphics) (s : TexState)
    (hp : g.present = true) (hl : g.deviceLost = false)
    (hr : s.requestedLevels = 0) (hw : 0 < s.width) (hh : 0 < s.height)
    (hlay : s.layers ≠ 0) :
    (create g s).2.1.levels = Nat.log 2 (max s.width s.height).toNat + 1 := by
  rw [create_levels_auto g s hp hl hr (by omega) (by omega) hlay]
  exact levelsCount_eq _ (by omega)

/-- Witness for the amended C5 at a concrete 5×5 state. -/
theorem c5_create_levels_floor_log_witness :
    (create gLive s55).2.1.levels = Nat.log 2 (max s55.width s55.height).toNat + 1 :=
  c5_create_levels_floor_log gLive s55 (by decide) (by decide) (by decide) (by decide)
    (by decide) (by decide)

/-- Claim C6 (counterexample): on a freshly-sized array (`setSize`
succeeded on the live device, no layer uploaded yet) the GPU object
already exists, so an image-form `SetData` on layer 1 with a matching
image succeeds instead of failing with the "layer 0 must be loaded first"
condition. -/
theorem c6_counterexample :
    (setSize gLive 4 4 4 rgbaFormat TextureUsage.texStatic state0).1 = true ∧
    (setDataImage gLive 2 1 (some exImg4) false exSized4).1 = SetDataOutcome.success := by
  decide

/-- Claim C6 (amended): the "layer 0 must be loaded first" failure of the
image-form `SetData` on a nonzero layer triggers exactly when no GPU
object exists (handle absent — e.g. after `SetLayers` alone, or after
sizing while headless or device-lost); it is a guard on the handle, not
on whether the data of layer 0 was uploaded. -/
theorem c6_layer_zero_guard (g : Graphics) (quality layer : Nat) (img : Image)
    (useAlpha : Bool) (s : TexState) (hlay : s.layers ≠ 0) (hl0 : 0 < layer)
    (hlr : layer < s.layers) (hobj : s.objectName = 0) :
    setDataImage g quality layer (some img) useAlpha s =
      (SetDataOutcome.errLayerZeroFirst, s, []) := by
  simp only [setDataImage]
  rw [if_neg hlay, if_neg (by omega : ¬layer ≥ s.layers)]
  by_cases hc : ¬img.compressed = true
  · rw [if_pos hc, if_neg (by omega : ¬layer = 0), if_pos hobj]
  · rw [if_neg hc, if_neg (by omega : ¬layer = 0), if_pos hobj]

/-- Witness for the amended C6: layer 1 before layer 0 on an array with
layers set but no GPU object fails with the layer-0 condition. -/
theorem c6_layer_zero_guard_witness :
    setDataImage gLive 2 1 (some exImg4) false exLayersOnly =
      (SetDataOutcome.errLayerZeroFirst, exLayersOnly, []) :=
  c6_layer_zero_guard gLive 2 1 exImg4 false exLayersOnly (by decide) (by decide)
    (by decide) (by decide)

/-- Claim C7: once layer 0 is established, an image-form `SetData` on a
nonzero layer whose negotiated width, height or format differs from the
stored values fails with the mismatch condition, returns the state
entirely unchanged, and issues no GPU calls. -/
theorem c7_mismatch_rejected_no_mutation (g : Graphics) (quality layer : Nat)
    (img : Image) (useAlpha : Bool) (s : TexState) (hlay : s.layers ≠ 0)
    (hl0 : 0 < layer) (hlr : layer < s.layers) (hobj : s.objectName ≠ 0)
    (hmis : negotiatedTriple g quality img useAlpha s ≠ (s.width, s.height, s.format)) :
    setDataImage g quality layer (some img) useAlpha s =
      (SetDataOutcome.errLayerMismatch, s, []) := by
  simp only [setDataImage]
  rw [if_neg hlay, if_neg (by omega : ¬layer ≥ s.layers)]
  by_cases hc : img.compressed = true
  · have hd : (negotiateC g quality img s).width ≠ s.width ∨
        (negotiateC g quality img s).height ≠ s.height ∨
        (negotiateC g quality img s).format ≠ s.format := by
      by_contra hno
      push_neg at hno
      exact hmis (by simp [negotiatedTriple, hc, hno.1, hno.2.1, hno.2.2])
    rw [if_neg (by simp [hc]), if_neg (by omega : ¬layer = 0), if_neg hobj, if_pos hd]
  · have hd : (negotiateU g quality img useAlpha s).levelWidth ≠ s.width ∨
        (negotiateU g quality img useAlpha s).levelHeight ≠ s.height ∨
        (negotiateU g quality img useAlpha s).format ≠ s.format := by
      by_contra hno
      push_neg at hno
      exact hmis (by simp [negotiatedTriple, hc, hno.1, hno.2.1, hno.2.2])
    rw [if_pos (by simp [hc]), if_neg (by omega : ¬layer = 0), if_neg hobj, if_pos hd]

/-- Witness for C7: an 8×8 image against a 4×4 layer-0 sizing is rejected
with no state change and no GPU calls. -/
theorem c7_mismatch_rejected_no_mutation_witness :
    setDataImage gLive 2 1 (some exImg8) false exSized4 =
      (SetDataOutcome.errLayerMismatch, exSized4, []) :=
  c7_mismatch_rejected_no_mutation gLive 2 1 exImg8 false exSized4 (by decide)
    (by decide) (by decide) (by decide) (by decide)

theorem onDeviceReset_restores (g : Graphics) (c : Cache) (s : TexState)
    (hp : g.present = true) (hl : g.deviceLost = false) (hobj0 : s.objectName = 0)
    (hw : s.width ≠ 0) (hh : s.height ≠ 0) (hlay : s.layers ≠ 0)
    (hreload : (c.reload g s).2.objectName ≠ 0 ∨
      ((c.reload g s).2.width ≠ 0 ∧ (c.reload g s).2.height ≠ 0 ∧
        (c.reload g s).2.layers ≠ 0)) :
    (onDeviceReset g c s).dataPending = false ∧
    (onDeviceReset g c s).objectName ≠ 0 := by
  constructor
  · simp [onDeviceReset]
  · simp only [onDeviceReset]
    rw [if_pos (Or.inl hobj0)]
    split_ifs with hcf h2
    · rcases hreload with hro | ⟨hrw, hrh, hrl⟩
      · exact absurd h2 hro
      · have hc1 := create_live_handle g
          { (c.reload g s).2 with dataLost := !(c.reload g s).1 } hp hl hrw hrh hrl
        simp [hc1]
    · simpa using h2
    · have hc1 := create_live_handle g s hp hl hw hh hlay
      simp [hc1]

/-- Claim C2: a per-region `SetData` that passes the existence, null-data,
layer-range and level-range checks while the device is lost returns
success, raises `dataPending`, and issues no GPU calls; after the loss
notification invalidates the handle, `OnDeviceReset` on the restored
device clears `dataPending` and leaves a valid GPU handle — via the cache
reload or, failing that, by recreating an empty object (the external
reload either produces a handle or leaves the sized dimensions in
place). -/
theorem c2_setData_lost_deferred_then_reset (g gReset : Graphics) (c : Cache)
    (s : TexState) (layer level : Nat) (x y w h : Int) (d : Nat)
    (hp : g.present = true) (hl : g.deviceLost = true)
    (hobj : s.objectName ≠ 0) (hlayer : layer < s.layers) (hlevel : level < s.levels)
    (hw : s.width ≠ 0) (hh : s.height ≠ 0) (hlay : s.layers ≠ 0)
    (hp2 : gReset.present = true) (hl2 : gReset.deviceLost = false)
    (hreload :
      (c.reload gReset (onDeviceLost { s with dataPending := true })).2.objectName ≠ 0 ∨
      ((c.reload gReset (onDeviceLost { s with dataPending := true })).2.width ≠ 0 ∧
       (c.reload gReset (onDeviceLost { s with dataPending := true })).2.height ≠ 0 ∧
       (c.reload gReset (onDeviceLost { s with dataPending := true })).2.layers ≠ 0)) :
    setDataRegion g layer level x y w h (some d) s =
      (true, { s with dataPending := true }, []) ∧
    (onDeviceReset gReset c (onDeviceLost { s with dataPending := true })).dataPending
      = false ∧
    (onDeviceReset gReset c (onDeviceLost { s with dataPending := true })).objectName
      ≠ 0 := by
  refine ⟨setDataRegion_lost g layer level x y w h d s hp hl hobj hlayer hlevel, ?_⟩
  exact onDeviceReset_restores gReset c (onDeviceLost { s with dataPending := true })
    hp2 hl2 rfl hw hh hlay hreload

/-- Witness for C2: region upload to a sized 8×8 array while the device is
lost, then a reset with no source file in the cache. -/
theorem c2_setData_lost_deferred_then_reset_witness :
    setDataRegion gLost 1 0 0 0 8 8 (some 3) exSized =
      (true, { exSized with dataPending := true }, []) ∧
    (onDeviceReset gLive cacheNone
      (onDeviceLost { exSized with dataPending := true })).dataPending = false ∧
    (onDeviceReset gLive cacheNone
      (onDeviceLost { exSized with dataPending := true })).objectName ≠ 0 :=
  c2_setData_lost_deferred_then_reset gLost gLive cacheNone exSized 1 0 0 0 8 8 3
    (by decide) (by decide) (by decide) (by decide) (by decide) (by decide) (by decide)
    (by decide) (by decide) (by decide) (Or.inr (by decide))

theorem release_calls_lost (g : Graphics) (s : TexState) (hl : g.deviceLost = true) :
    (release g s).2 = [] := by
  unfold release
  split_ifs <;> simp_all

theorem create_lost_calls (g : Graphics) (s : TexState) (hp : g.present = true)
    (hl : g.deviceLost = true) (hw : s.width ≠ 0) (hh : s.height ≠ 0)
    (hlay : s.layers ≠ 0) : (create g s).2.2 = [] := by
  unfold create
  rw [if_neg (create_guard_ok g s hp hw hh hlay), if_pos (show g.deviceLost = true from hl)]
  exact release_calls_lost g s hl

theorem setSize_lost_core (g : Graphics) (s : TexState) (layersArg : Nat) (w h : Int)
    (f : Nat) (u : TextureUsage) (hp : g.present = true) (hl : g.deviceLost = true)
    (hw : 0 < w) (hh : 0 < h) (hu : u ≠ TextureUsage.texDepthStencil)
    (hres : layersArg ≠ 0 ∨ s.layers ≠ 0) :
    (setSize g layersArg w h f u s).1 = true ∧
    (setSize g layersArg w h f u s).2.1.objectName = 0 ∧
    (setSize g layersArg w h f u s).2.1.dataPending = s.dataPending ∧
    (setSize g layersArg w h f u s).2.2 = [] := by
  have hA : ¬(w ≤ 0 ∨ h ≤ 0) := by omega
  simp only [setSize]
  rw [if_neg hA, if_neg hu]
  refine ⟨?_, ?_, ?_, ?_⟩
  · refine create_true _ _ hp ?_ ?_ ?_ <;> split_ifs <;> simp_all <;> omega
  · refine create_lost_objectName _ _ hp hl ?_ ?_ ?_ <;> split_ifs <;> simp_all <;> omega
  · rw [create_dataPending]
    split_ifs <;> rfl
  · refine create_lost_calls _ _ hp hl ?_ ?_ ?_ <;> split_ifs <;> simp_all <;> omega

theorem uploadLoopU_noObject (g : Graphics) (layer comp : Nat) :
    ∀ (r i : Nat) (img : Image) (s : TexState) (mem : Nat), s.objectName = 0 →
      (uploadLoopU g layer comp r i img s mem).1 = s ∧
      (uploadLoopU g layer comp r i img s mem).2.1 = [] := by
  intro r
  induction r with
  | zero => intro i img s mem _; exact ⟨rfl, rfl⟩
  | succ r' ih =>
    intro i img s mem h0
    have hstep : setDataRegion g layer i 0 0 img.getWidth img.getHeight
        (some img.getData) s = (false, s, []) := by
      simp only [setDataRegion]
      rw [if_pos (Or.inl h0)]
    have h1a : ∀ (img2 : Image) (mem2 : Nat),
        (uploadLoopU g layer comp r' (i + 1) img2 s mem2).1 = s :=
      fun img2 mem2 => (ih (i + 1) img2 s mem2 h0).1
    have h1b : ∀ (img2 : Image) (mem2 : Nat),
        (uploadLoopU g layer comp r' (i + 1) img2 s mem2).2.1 = [] :=
      fun img2 mem2 => (ih (i + 1) img2 s mem2 h0).2
    simp only [uploadLoopU, hstep]
    simp [h1a, h1b]

theorem uploadLoopC_noObject (g : Graphics) (layer skip : Nat) (nd : Bool) (img : Image) :
    ∀ (r i : Nat) (s : TexState) (mem : Nat), s.objectName = 0 →
      (uploadLoopC g layer skip nd img r i s mem).1 = s ∧
      (uploadLoopC g layer skip nd img r i s mem).2.1 = [] := by
  intro r
  induction r with
  | zero => intro i s mem _; exact ⟨rfl, rfl⟩
  | succ r' ih =>
    intro i s mem h0
    have hstep : setDataRegion g layer i 0 0 (img.getCompressedLevel (i + skip)).width
        (img.getCompressedLevel (i + skip)).height
        (some (img.getCompressedLevel (i + skip)).dat) s = (false, s, []) := by
      simp only [setDataRegion]
      rw [if_pos (Or.inl h0)]
    have h1a : ∀ mem2 : Nat, (uploadLoopC g layer skip nd img r' (i + 1) s mem2).1 = s :=
      fun mem2 => (ih (i + 1) s mem2 h0).1
    have h1b : ∀ mem2 : Nat, (uploadLoopC g layer skip nd img r' (i + 1) s mem2).2.1 = [] :=
      fun mem2 => (ih (i + 1) s mem2 h0).2
    simp only [uploadLoopC, hstep]
    simp [h1a, h1b]

theorem uploadLoopC_lost (g : Graphics) (layer skip : Nat) (nd : Bool) (img : Image)
    (hp : g.present = true) (hl : g.deviceLost = true) :
    ∀ (r i : Nat) (s : TexState) (mem : Nat),
      s.objectName ≠ 0 → layer < s.layers → i + r ≤ s.levels → 0 < r →
      (uploadLoopC g layer skip nd img r i s mem).1 = { s with dataPending := true } ∧
      (uploadLoopC g layer skip nd img r i s mem).2.1 = [] := by
  intro r
  induction r with
  | zero => intro i s mem _ _ _ hr; omega
  | succ r' ih =>
    intro i s mem hobj hlayer hle _
    have hstep := setDataRegion_lost g layer i 0 0
      (img.getCompressedLevel (i + skip)).width (img.getCompressedLevel (i + skip)).height
      (img.getCompressedLevel (i + skip)).dat s hp hl hobj hlayer (by omega)
    simp only [uploadLoopC, hstep]
    rcases Nat.eq_zero_or_pos r' with h0 | hpos
    · subst h0
      simp [uploadLoopC]
    · have h1a : ∀ mem2 : Nat, (uploadLoopC g layer skip nd img r' (i + 1)
          { s with dataPending := true } mem2).1 = { s with dataPending := true } :=
        fun mem2 => (ih (i + 1) { s with dataPending := true } mem2 hobj hlayer
          (by simpa using by omega) hpos).1
      have h1b : ∀ mem2 : Nat, (uploadLoopC g layer skip nd img r' (i + 1)
          { s with dataPending := true } mem2).2.1 = [] :=
        fun mem2 => (ih (i + 1) { s with dataPending := true } mem2 hobj hlayer
          (by simpa using by omega) hpos).2
      simp [h1a, h1b]

theorem clampMipsToSkip_le (r l : Nat) (w h : Int) (hl1 : 1 ≤ l) :
    clampMipsToSkip r l w h ≤ l - 1 := by
  have hle := clampLoop_le (if r ≥ l then l - 1 else r) w h
  simp only [clampMipsToSkip]
  split_ifs at hle ⊢ <;> omega

theorem setDataImage_lost_matching (g : Graphics) (quality layer : Nat) (img : Image)
    (useAlpha : Bool) (s : TexState) (hp : g.present = true) (hl : g.deviceLost = true)
    (hobj : s.objectName ≠ 0) (hlay : s.layers ≠ 0) (hlr : layer < s.layers)
    (hl0 : 0 < layer) (hlev : 0 < s.levels)
    (hclev : img.compressed = true → img.compressedLevels.length ≠ 0)
    (hmatch : negotiatedTriple g quality img useAlpha s = (s.width, s.height, s.format)) :
    (setDataImage g quality layer (some img) useAlpha s).1 = SetDataOutcome.success ∧
    (setDataImage g quality layer (some img) useAlpha s).2.1.dataPending = true ∧
    (setDataImage g quality layer (some img) useAlpha s).2.2 = [] := by
  by_cases hc : img.compressed = true
  · have hmm : (negotiateC g quality img s).width = s.width ∧
        (negotiateC g quality img s).height = s.height ∧
        (negotiateC g quality img s).format = s.format := by
      simpa [negotiatedTriple, hc, Prod.ext_iff] using hmatch
    obtain ⟨hm1, hm2, hm3⟩ := hmm
    have hcl1 : 1 ≤ img.compressedLevels.length :=
      Nat.one_le_iff_ne_zero.mpr (hclev hc)
    have hskip : (negotiateC g quality img s).skip ≤ img.compressedLevels.length - 1 := by
      simp only [negotiateC]
      exact clampMipsToSkip_le _ _ _ _ hcl1
    have hcl2 : (negotiateC g quality img s).clevels = img.compressedLevels.length := rfl
    have hcount : 0 < min s.levels
        ((negotiateC g quality img s).clevels - (negotiateC g quality img s).skip) := by
      rw [hcl2]
      omega
    have hup := uploadLoopC_lost g layer (negotiateC g quality img s).skip
      (negotiateC g quality img s).needDecompress img hp hl
      (min s.levels ((negotiateC g quality img s).clevels - (negotiateC g quality img s).skip))
      0 s 0 hobj hlr (by omega) hcount
    simp only [setDataImage]
    rw [if_neg hlay, if_neg (by omega : ¬layer ≥ s.layers), if_neg (by simp [hc]),
      if_neg (by omega : ¬layer = 0), if_neg hobj, if_neg (by simp [hm1, hm2, hm3])]
    simp [finishMem, hup.1, hup.2]
  · have himgc : img.compressed = false := by simpa using hc
    have hmm : (negotiateU g quality img useAlpha s).levelWidth = s.width ∧
        (negotiateU g quality img useAlpha s).levelHeight = s.height ∧
        (negotiateU g quality img useAlpha s).format = s.format := by
      simpa [negotiatedTriple, himgc, Prod.ext_iff] using hmatch
    obtain ⟨hm1, hm2, hm3⟩ := hmm
    have hup := uploadLoopU_lost g layer
      (negotiateU g quality img useAlpha s).components hp hl s.levels 0
      (negotiateU g quality img useAlpha s).image s 0 hobj hlr (by omega) hlev
    simp only [setDataImage]
    rw [if_neg hlay, if_neg (by omega : ¬layer ≥ s.layers), if_pos (by simp [himgc]),
      if_neg (by omega : ¬layer = 0), if_neg hobj, if_neg (by simp [hm1, hm2, hm3])]
    simp [finishMem, hup.1, hup.2]

theorem setDataImage_lost_layer0 (g : Graphics) (quality : Nat) (img : Image)
    (useAlpha : Bool) (s : TexState) (hp : g.present = true) (hl : g.deviceLost = true)
    (hlay : s.layers ≠ 0)
    (hwpos : 0 < (negotiatedTriple g quality img useAlpha s).1)
    (hhpos : 0 < (negotiatedTriple g quality img useAlpha s).2.1) :
    (setDataImage g quality 0 (some img) useAlpha s).1 = SetDataOutcome.success ∧
    (setDataImage g quality 0 (some img) useAlpha s).2.1.dataPending = s.dataPending ∧
    (setDataImage g quality 0 (some img) useAlpha s).2.1.objectName = 0 ∧
    (setDataImage g quality 0 (some img) useAlpha s).2.2 = [] := by
  by_cases hc : img.compressed = true
  · have hw2 : 0 < (negotiateC g quality img s).width := by
      simpa [negotiatedTriple, hc] using hwpos
    have hh2 : 0 < (negotiateC g quality img s).height := by
      simpa [negotiatedTriple, hc] using hhpos
    have hsz := setSize_lost_core g
      (setNumLevels (max ((negotiateC g quality img s).clevels -
        (negotiateC g quality img s).skip) 1) s) 0
      (negotiateC g quality img s).width (negotiateC g quality img s).height
      (negotiateC g quality img s).format TextureUsage.texStatic hp hl hw2 hh2
      (by decide) (Or.inr hlay)
    have h1a := fun r i mem t ht =>
      (uploadLoopC_noObject g 0 (negotiateC g quality img s).skip
        (negotiateC g quality img s).needDecompress img r i t mem ht).1
    have h1b := fun r i mem t ht =>
      (uploadLoopC_noObject g 0 (negotiateC g quality img s).skip
        (negotiateC g quality img s).needDecompress img r i t mem ht).2
    simp only [setDataImage]
    have hpendC : (setNumLevels (max ((negotiateC g quality img s).clevels -
        (negotiateC g quality img s).skip) 1) s).dataPending = s.dataPending := rfl
    rw [if_neg hlay, if_neg (by omega : ¬(0 : Nat) ≥ s.layers), if_neg (by simp [hc])]
    simp [finishMem, h1a, h1b, hsz.2.1, hsz.2.2.1, hsz.2.2.2, hpendC]
  · have himgc : img.compressed = false := by simpa using hc
    have hw2 : 0 < (negotiateU g quality img useAlpha s).levelWidth := by
      simpa [negotiatedTriple, himgc] using hwpos
    have hh2 : 0 < (negotiateU g quality img useAlpha s).levelHeight := by
      simpa [negotiatedTriple, himgc] using hhpos
    have hlay2 : (if isCompressedFormat s.format = true ∧ s.requestedLevels > 1 then
        { s with requestedLevels := 0 } else s).layers ≠ 0 := by
      split_ifs <;> exact hlay
    have hpend : (if isCompressedFormat s.format = true ∧ s.requestedLevels > 1 then
        { s with requestedLevels := 0 } else s).dataPending = s.dataPending := by
      split_ifs <;> rfl
    have hsz := setSize_lost_core g
      (if isCompressedFormat s.format = true ∧ s.requestedLevels > 1 then
        { s with requestedLevels := 0 } else s) 0
      (negotiateU g quality img useAlpha s).levelWidth
      (negotiateU g quality img useAlpha s).levelHeight
      (negotiateU g quality img useAlpha s).format TextureUsage.texStatic hp hl hw2 hh2
      (by decide) (Or.inr hlay2)
    have h1a := fun r i img2 mem t ht =>
      (uploadLoopU_noObject g 0 (negotiateU g quality img useAlpha s).components
        r i img2 t mem ht).1
    have h1b := fun r i img2 mem t ht =>
      (uploadLoopU_noObject g 0 (negotiateU g quality img useAlpha s).components
        r i img2 t mem ht).2
    simp only [setDataImage]
    rw [if_neg hlay, if_neg (by omega : ¬(0 : Nat) ≥ s.layers), if_pos (by simp [himgc])]
    simp [finishMem, h1a, h1b, hsz.2.1, hsz.2.2.1, hsz.2.2.2, hpend]

/-- Claim C3 (amended): while the device is lost, no operation except
`GetData` hard-fails, but only some of them raise `dataPending`: the
region-form `SetData` (existence / null-data / layer-range / level-range
checks passed) returns success, raises `dataPending`, and issues no GPU
calls; the image-form `SetData` on a nonzero layer (object present,
negotiated values matching, image with at least one level) returns
success, raises `dataPending`, and issues no GPU calls; the image-form
`SetData` on layer 0 (positive negotiated dimensions) returns success and
issues no GPU calls but leaves `dataPending` untouched — its sizing path
defers creation, leaving the handle absent so the reset retries through
the missing-handle condition; `BeginLoad` returns success raising
`dataPending`; `SetSize` returns success without raising `dataPending`,
leaving the handle absent; `EndLoad` returns success with no effect; and
`GetData` on otherwise-valid arguments returns failure while the device
is lost. -/
theorem c3_device_lost_ops (g : Graphics) (s : TexState) (layers0 : Nat)
    (w0 h0 : Int) (f0 : Nat) (u0 : TextureUsage) (layer level : Nat)
    (x y rw0 rh0 : Int) (d : Nat) (quality : Nat) (img : Image) (useAlpha : Bool)
    (texPath : String) (desc : Option (List String)) (fetch : String → Option Image)
    (dst : Nat)
    (hp : g.present = true) (hl : g.deviceLost = true)
    (hw : 0 < w0) (hh : 0 < h0) (hu : u0 ≠ TextureUsage.texDepthStencil)
    (hL : layers0 ≠ 0)
    (hobj : s.objectName ≠ 0) (hlayer : layer < s.layers) (hlevel : level < s.levels)
    (hl0 : 0 < layer) (hsw : 0 < s.width) (hsh : 0 < s.height)
    (hclev : img.compressed = true → img.compressedLevels.length ≠ 0)
    (hmatch : negotiatedTriple g quality img useAlpha s = (s.width, s.height, s.format)) :
    (setSize g layers0 w0 h0 f0 u0 s).1 = true ∧
    (setSize g layers0 w0 h0 f0 u0 s).2.1.dataPending = s.dataPending ∧
    (setSize g layers0 w0 h0 f0 u0 s).2.1.objectName = 0 ∧
    setDataRegion g layer level x y rw0 rh0 (some d) s =
      (true, { s with dataPending := true }, []) ∧
    (setDataImage g quality layer (some img) useAlpha s).1 = SetDataOutcome.success ∧
    (setDataImage g quality layer (some img) useAlpha s).2.1.dataPending = true ∧
    (setDataImage g quality layer (some img) useAlpha s).2.2 = [] ∧
    (setDataImage g quality 0 (some img) useAlpha s).1 = SetDataOutcome.success ∧
    (setDataImage g quality 0 (some img) useAlpha s).2.1.dataPending = s.dataPending ∧
    (setDataImage g quality 0 (some img) useAlpha s).2.1.objectName = 0 ∧
    (setDataImage g quality 0 (some img) useAlpha s).2.2 = [] ∧
    beginLoad g texPath desc fetch s = (true, { s with dataPending := true }) ∧
    endLoad g quality s = (true, s, []) ∧
    (getData g 0 level (some dst) s).1 = false := by
  have hlay : s.layers ≠ 0 := by omega
  have hsz := setSize_lost_core g s layers0 w0 h0 f0 u0 hp hl hw hh hu (Or.inl hL)
  have himg := setDataImage_lost_matching g quality layer img useAlpha s hp hl hobj
    hlay hlayer hl0 (by omega) hclev hmatch
  have h0img := setDataImage_lost_layer0 g quality img useAlpha s hp hl hlay
    (by rw [hmatch]; exact hsw) (by rw [hmatch]; exact hsh)
  refine ⟨hsz.1, hsz.2.2.1, hsz.2.1,
    setDataRegion_lost g layer level x y rw0 rh0 d s hp hl hobj hlayer hlevel,
    himg.1, himg.2.1, himg.2.2,
    h0img.1, h0img.2.1, h0img.2.2.1, h0img.2.2.2, ?_, ?_, ?_⟩
  · simp [beginLoad, hp, hl]
  · simp [endLoad, hl]
  · simp only [getData]
    rw [if_neg (by simp [hobj, hp]), if_neg (by simp), if_neg (by omega : ¬(0 : Nat) ≠ 0),
      if_neg (by omega : ¬level ≥ s.levels), if_pos (by simp [hl])]

/-- Claim C3 (counterexample): the very same otherwise-valid `GetData`
call that succeeds on the live device returns failure — not a deferred
success — while the device is lost, refuting "never hard-fails" for the
full set of public operations. -/
theorem c3_counterexample :
    (getData gLive 0 0 (some 7) exSized).1 = true ∧
    (getData gLost 0 0 (some 7) exSized).1 = false := by
  decide

/-- Witness for the amended C3 at concrete device-lost calls on a sized
8×8 array. -/
theorem c3_device_lost_ops_witness :
    (setSize gLost 4 8 8 rgbaFormat TextureUsage.texStatic exSized).1 = true ∧
    (setSize gLost 4 8 8 rgbaFormat TextureUsage.texStatic exSized).2.1.dataPending =
      exSized.dataPending ∧
    (setSize gLost 4 8 8 rgbaFormat TextureUsage.texStatic exSized).2.1.objectName = 0 ∧
    setDataRegion gLost 1 0 0 0 8 8 (some 3) exSized =
      (true, { exSized with dataPending := true }, []) ∧
    (setDataImage gLost 2 1 (some exImg8) false exSized).1 = SetDataOutcome.success ∧
    (setDataImage gLost 2 1 (some exImg8) false exSized).2.1.dataPending = true ∧
    (setDataImage gLost 2 1 (some exImg8) false exSized).2.2 = [] ∧
    (setDataImage gLost 2 0 (some exImg8) false exSized).1 = SetDataOutcome.success ∧
    (setDataImage gLost 2 0 (some exImg8) false exSized).2.1.dataPending =
      exSized.dataPending ∧
    (setDataImage gLost 2 0 (some exImg8) false exSized).2.1.objectName = 0 ∧
    (setDataImage gLost 2 0 (some exImg8) false exSized).2.2 = [] ∧
    beginLoad gLost "textures/" (some ["a.png"]) (fun _ => none) exSized =
      (true, { exSized with dataPending := true }) ∧
    endLoad gLost 2 exSized = (true, exSized, []) ∧
    (getData gLost 0 0 (some 7) exSized).1 = false :=
  c3_device_lost_ops gLost exSized 4 8 8 rgbaFormat TextureUsage.texStatic 1 0 0 0 8 8 3
    2 exImg8 false "textures/" (some ["a.png"]) (fun _ => none) 7
    (by decide) (by decide) (by decide) (by decide) (by decide) (by decide) (by decide)
    (by decide) (by decide) (by decide) (by decide) (by decide) (by decide) (by decide)
